import Mathlib

/-!
Verification of the streaming core of the flux-data-forge repository
(`src/spcs_app/fastapi_app.py`) against its specification.

The Python code is shallowly embedded: the job registry, worker loops,
reading generator, session provider, meter-fleet resolver, pipe-refresh
cadence and control endpoints are translated into executable Lean
definitions, with randomness and external I/O outcomes passed in as
explicit parameters.  Each claim of the specification is then proved or
refuted against these definitions.
-/

set_option autoImplicit false

namespace FluxForge

/-! ## Job lifecycle model

`active_streaming_jobs` maps `job_id` to a dict holding `status`, `config`
and `stats`, guarded by `streaming_lock` (fastapi_app.py line 48).  Since
every read-modify-write of a record happens under the one lock, an
execution is an interleaving of atomic operations on the record.  We model
a single job's record together with its owning worker's control position,
and the atomic operations that the code performs on it.
-/

/-- Job status strings used by the code:
`STARTING` (set at registration, line 7667), `RUNNING` (worker init,
line 429), `STOPPING` (stop endpoint, line 7330), `STOPPED` (loop check,
line 496), `FAILED` (setup failure, lines 570/650). -/
inductive Status where
  | STARTING
  | RUNNING
  | STOPPING
  | STOPPED
  | FAILED
deriving DecidableEq, Repr

/-- Control position of the (unique) worker thread of a job:
before the initialization write (lines 426–430), in the setup section
(S3 client / fleet loading, lines 432–482), inside the main `while True`
loop (line 488), or returned. -/
inductive Phase where
  | preInit
  | setup
  | looping
  | exited
deriving DecidableEq, Repr

/-- Outcome of the delivery attempt inside one loop iteration:
`get_valid_session()` returned `None` (the `if batch and session` guard
skips delivery, line 507), the batch was delivered (`rows` rows inserted,
stats updated at lines 536–539), or an exception was raised anywhere in
the `try` block (handler at lines 547–551). -/
inductive DeliverOutcome where
  | noSession
  | delivered (rows : ℕ)
  | failed
deriving DecidableEq, Repr

/-- One atomic operation on a job record, by its worker or by the
control plane. -/
inductive Event where
  /-- The worker's initialization write: resets `stats` and sets
  `status = 'RUNNING'` under the lock (lines 426–430). -/
  | initEv
  /-- Setup (client construction, fleet loading) succeeded; the worker
  enters the main loop. -/
  | setupOkEv
  /-- Unrecoverable setup failure: `status = 'FAILED'`,
  `stats['errors'] += 1`, worker returns (lines 648–652). -/
  | setupFailEv
  /-- One iteration of the main loop: stop-check at the top
  (lines 489–497) then the body (lines 499–551). -/
  | iterEv (o : DeliverOutcome)
  /-- The `stop_streaming_job` endpoint: sets `status = 'STOPPING'`
  whenever the job is present, regardless of its current status
  (lines 7328–7331). -/
  | stopEv
deriving DecidableEq, Repr

/-- The lock-protected state of one job record, plus the worker's
control position. -/
structure JobState where
  /-- `job_id in active_streaming_jobs` (no endpoint removes entries). -/
  present : Bool
  status : Status
  totalRows : ℕ
  batches : ℕ
  errors : ℕ
  phase : Phase
deriving DecidableEq, Repr

open Status Phase DeliverOutcome Event

/-- Effect of one atomic operation on the job state, mirroring the code
branch by branch. -/
def step (s : JobState) : Event → JobState
  | initEv =>
    -- lines 425-430: only the worker, before anything else, once.
    if s.phase = preInit then
      if s.present then
        { s with status := RUNNING, totalRows := 0, batches := 0,
                 errors := 0, phase := setup }
      else { s with phase := setup }
    else s
  | setupOkEv =>
    if s.phase = setup then { s with phase := looping } else s
  | setupFailEv =>
    -- lines 646-652 (raw_json_s3 worker) and 1186-1192 (external stage
    -- worker): mark FAILED, count the error, return without looping.
    if s.phase = setup then
      if s.present then
        { s with status := FAILED, errors := s.errors + 1, phase := exited }
      else { s with phase := exited }
    else s
  | iterEv o =>
    if s.phase = looping then
      -- lines 489-497: stop-check at the top of the iteration.
      if !s.present then { s with phase := exited }
      else if s.status = STOPPING then
        { s with status := STOPPED, phase := exited }
      else
        -- lines 499-551: generate, deliver, update stats / count error.
        match o with
        | noSession => s
        | delivered rows =>
          { s with totalRows := s.totalRows + rows, batches := s.batches + 1 }
        | failed => { s with errors := s.errors + 1 }
    else s
  | stopEv =>
    -- lines 7328-7331: unconditional on the current status.
    if s.present then { s with status := STOPPING } else s

/-- Run a sequence of operations. -/
def run (s : JobState) (t : List Event) : JobState :=
  t.foldl step s

theorem step_init_noop (s : JobState) (h : s.phase ≠ preInit) :
    step s initEv = s := by simp [step, h]

theorem step_setupOk_noop (s : JobState) (h : s.phase ≠ setup) :
    step s setupOkEv = s := by simp [step, h]

theorem step_setupFail_noop (s : JobState) (h : s.phase ≠ setup) :
    step s setupFailEv = s := by simp [step, h]

theorem step_iter_noop (s : JobState) (o : DeliverOutcome)
    (h : s.phase ≠ looping) : step s (iterEv o) = s := by simp [step, h]

theorem step_stop_noop (s : JobState) (h : ¬ s.present = true) :
    step s stopEv = s := by simp [step, h]

/-- The registry entry created by `start_stream` (lines 7665–7679):
present, `status = 'STARTING'`, zeroed stats, worker not yet started. -/
def startedState : JobState :=
  { present := true, status := STARTING, totalRows := 0, batches := 0,
    errors := 0, phase := preInit }

@[simp] theorem run_nil (s : JobState) : run s [] = s := rfl

@[simp] theorem run_cons (s : JobState) (e : Event) (t : List Event) :
    run s (e :: t) = run (step s e) t := rfl

/-! ## Status ordering

The spec's transition diagram
`{STARTING, RUNNING} → {STOPPING → STOPPED} or → FAILED` induces a rank;
"never moves backward" means the rank never decreases along a run, and
`STOPPED`/`FAILED` (both terminal) are never left. -/

/-- Position of a status along the spec's forward direction.  `STOPPED`
and `FAILED` are both terminal. -/
def statusRank : Status → ℕ
  | STARTING => 0
  | RUNNING => 1
  | STOPPING => 2
  | STOPPED => 3
  | FAILED => 3

/-- `true` iff along the whole run from `s`, every single operation
leaves the status rank unchanged or increased, and never leaves a
terminal (`STOPPED`/`FAILED`) status. -/
def ranksMonoB : JobState → List Event → Bool
  | _, [] => true
  | s, e :: t =>
    decide (statusRank s.status ≤ statusRank (step s e).status) &&
    decide ((s.status = STOPPED ∨ s.status = FAILED) →
      (step s e).status = s.status) &&
    ranksMonoB (step s e) t

/-- `true` iff every `stopEv` in the trace fires at a point where the
worker has already performed its initialization write and the job is not
already terminal. -/
def stopsWellPlacedB : JobState → List Event → Bool
  | _, [] => true
  | s, e :: t =>
    decide (e = stopEv →
      s.phase ≠ preInit ∧ s.status ≠ STOPPED ∧ s.status ≠ FAILED) &&
    stopsWellPlacedB (step s e) t

/-- Claim C2 as stated: along every operation sequence from a freshly
registered job, the status only ever moves forward. -/
def claimC2Statement : Prop :=
  ∀ t : List Event, ranksMonoB startedState t = true

/-- Claim C1 as stated: if `stop_streaming_job` runs immediately after
the `start_stream` registration, then (a) the status is never `RUNNING`
afterwards, and (b) as soon as the worker is in its loop, its next
iteration leaves the job `STOPPED`. -/
def claimC1Statement : Prop :=
  (∀ t : List Event, (run (step startedState stopEv) t).status ≠ RUNNING)
  ∧ (∀ t : List Event, ∀ o : DeliverOutcome,
      (run (step startedState stopEv) t).phase = looping →
      (step (run (step startedState stopEv) t) (iterEv o)).status = STOPPED)

/-- C1, counterexample.  The claim fails on the code: when the stop
lands before the worker's initialization write (lines 426–430), that
write overwrites `STOPPING` with `RUNNING` and the stop signal is lost —
the trace `start; stop; init; setup; iterate` leaves the job `RUNNING`
and still looping, so it neither stops within one cadence interval nor
stays away from `RUNNING`. -/
theorem claimC1_false : ¬ claimC1Statement := by
  intro h
  exact h.1 [initEv, setupOkEv, iterEv (delivered 100)] (by decide)

/-- C2, counterexample.  The claim fails on the code:
`stop_streaming_job` sets `status = 'STOPPING'` unconditionally
(line 7330), so stopping an already-`STOPPED` job moves its status
backward from `STOPPED` to `STOPPING`.  The trace
`init; setup; stop; iterate; stop` exhibits exactly that. -/
theorem claimC2_false : ¬ claimC2Statement := by
  intro h
  exact absurd
    (h [initEv, setupOkEv, stopEv, iterEv noSession, stopEv]) (by decide)

/-- Auxiliary invariant for the monotonicity proof: before the worker's
initialization write the status is still the registration value
`STARTING`, and while the worker is in its setup section the job is not
yet terminal. -/
def LifecycleInv (s : JobState) : Prop :=
  (s.phase = preInit → s.status = STARTING)
  ∧ (s.phase = setup → s.status ≠ STOPPED ∧ s.status ≠ FAILED)

theorem lifecycleInv_step (s : JobState) (e : Event)
    (hI : LifecycleInv s)
    (hs : e = stopEv → s.phase ≠ preInit) : LifecycleInv (step s e) := by
  obtain ⟨h1, h2⟩ := hI
  cases e with
  | initEv =>
      by_cases hph : s.phase = preInit
      · by_cases hpr : s.present = true
        · simp [step, hph, hpr, LifecycleInv]
        · simp only [Bool.not_eq_true] at hpr
          simp [step, hph, hpr, LifecycleInv, h1 hph]
      · rw [step_init_noop s hph]; exact ⟨h1, h2⟩
  | setupOkEv =>
      by_cases hph : s.phase = setup
      · simp [step, hph, LifecycleInv]
      · rw [step_setupOk_noop s hph]; exact ⟨h1, h2⟩
  | setupFailEv =>
      by_cases hph : s.phase = setup
      · by_cases hpr : s.present = true
        · simp [step, hph, hpr, LifecycleInv]
        · simp only [Bool.not_eq_true] at hpr
          simp [step, hph, hpr, LifecycleInv]
      · rw [step_setupFail_noop s hph]; exact ⟨h1, h2⟩
  | iterEv o =>
      by_cases hph : s.phase = looping
      · by_cases hpr : s.present = true
        · by_cases hstp : s.status = STOPPING
          · simp [step, hph, hpr, hstp, LifecycleInv]
          · cases o <;> simp [step, hph, hpr, hstp, LifecycleInv]
        · simp only [Bool.not_eq_true] at hpr
          simp [step, hph, hpr, LifecycleInv]
      · rw [step_iter_noop s o hph]; exact ⟨h1, h2⟩
  | stopEv =>
      have hph := hs rfl
      by_cases hpr : s.present = true
      · simp [step, hpr, LifecycleInv, hph]
      · rw [step_stop_noop s (by simp [hpr])]; exact ⟨h1, h2⟩

theorem rank_mono_step (s : JobState) (e : Event)
    (hI : LifecycleInv s)
    (hs : e = stopEv →
      s.phase ≠ preInit ∧ s.status ≠ STOPPED ∧ s.status ≠ FAILED) :
    statusRank s.status ≤ statusRank (step s e).status
      ∧ ((s.status = STOPPED ∨ s.status = FAILED) →
          (step s e).status = s.status) := by
  obtain ⟨h1, h2⟩ := hI
  cases e with
  | initEv =>
      by_cases hph : s.phase = preInit
      · by_cases hpr : s.present = true
        · simp [step, hph, hpr, h1 hph, statusRank]
        · simp only [Bool.not_eq_true] at hpr
          simp [step, hph, hpr]
      · simp [step, hph]
  | setupOkEv =>
      by_cases hph : s.phase = setup <;> simp [step, hph]
  | setupFailEv =>
      by_cases hph : s.phase = setup
      · by_cases hpr : s.present = true
        · obtain ⟨hns, hnf⟩ := h2 hph
          refine ⟨?_, ?_⟩
          · simp only [step, hph, hpr, if_true]
            cases hst : s.status <;> simp [statusRank]
          · intro hterm
            cases hterm with
            | inl h => exact absurd h hns
            | inr h => exact absurd h hnf
        · simp only [Bool.not_eq_true] at hpr
          simp [step, hph, hpr]
      · simp [step, hph]
  | iterEv o =>
      by_cases hph : s.phase = looping
      · by_cases hpr : s.present = true
        · by_cases hstp : s.status = STOPPING
          · simp [step, hph, hpr, hstp, statusRank]
          · cases o <;> simp [step, hph, hpr, hstp]
        · simp only [Bool.not_eq_true] at hpr
          simp [step, hph, hpr]
      · simp [step, hph]
  | stopEv =>
      obtain ⟨_, hns, hnf⟩ := hs rfl
      by_cases hpr : s.present = true
      · refine ⟨?_, ?_⟩
        · simp only [step, hpr, if_true]
          cases hst : s.status <;> simp_all [statusRank]
        · intro hterm
          cases hterm with
          | inl h => exact absurd h hns
          | inr h => exact absurd h hnf
      · simp only [Bool.not_eq_true] at hpr
        simp [step, hpr]

theorem ranksMono_of_stopsWellPlaced (s : JobState)
    (hI : LifecycleInv s) :
    ∀ t : List Event, stopsWellPlacedB s t = true → ranksMonoB s t = true := by
  intro t
  induction t generalizing s with
  | nil => intro _; rfl
  | cons e t ih =>
      intro h
      simp only [stopsWellPlacedB, Bool.and_eq_true, decide_eq_true_eq] at h
      obtain ⟨he, ht⟩ := h
      have hmono := rank_mono_step s e hI he
      have hI' := lifecycleInv_step s e hI (fun h => (he h).1)
      simp only [ranksMonoB, Bool.and_eq_true, decide_eq_true_eq]
      exact ⟨⟨hmono.1, fun h => hmono.2 h⟩, ih (step s e) hI' ht⟩

/-- C2, amended and proved.  Provided `stop_streaming_job` never fires
before the worker's initialization write (lines 426–430) and never on a
job that is already `STOPPED` or `FAILED`, every operation sequence from
a freshly registered job moves the status only forward along
`STARTING → RUNNING → STOPPING → STOPPED` / `→ FAILED`, and a terminal
status is never left.  (The two excluded situations are real backward
transitions of the code: see `claimC2_false`.) -/
theorem status_monotone_of_stopsWellPlaced (t : List Event)
    (h : stopsWellPlacedB startedState t = true) :
    ranksMonoB startedState t = true :=
  ranksMono_of_stopsWellPlaced startedState
    (by exact ⟨fun _ => rfl, by simp [startedState]⟩) t h

/-- Witness for `status_monotone_of_stopsWellPlaced` on the trace
`init; setup ok; deliver; stop; final iteration`. -/
theorem status_monotone_witness :
    stopsWellPlacedB startedState
        [initEv, setupOkEv, iterEv (delivered 5), stopEv, iterEv noSession]
        = true
      ∧ ranksMonoB startedState
        [initEv, setupOkEv, iterEv (delivered 5), stopEv, iterEv noSession]
        = true :=
  ⟨by decide, status_monotone_of_stopsWellPlaced
      [initEv, setupOkEv, iterEv (delivered 5), stopEv, iterEv noSession]
      (by decide)⟩

/-! ### C1, amended -/

/-- After a worker is past its initialization write, no operation ever
makes the status `RUNNING` (again): the two facts
`phase ≠ preInit` and `status ≠ RUNNING` are jointly inductive. -/
theorem no_running_step (s : JobState) (e : Event)
    (h : s.phase ≠ preInit ∧ s.status ≠ RUNNING) :
    (step s e).phase ≠ preInit ∧ (step s e).status ≠ RUNNING := by
  obtain ⟨hph, hst⟩ := h
  cases e with
  | initEv => rw [step_init_noop s hph]; exact ⟨hph, hst⟩
  | setupOkEv =>
      by_cases h2 : s.phase = setup
      · simp [step, h2]; exact hst
      · rw [step_setupOk_noop s h2]; exact ⟨hph, hst⟩
  | setupFailEv =>
      by_cases h2 : s.phase = setup
      · by_cases hpr : s.present = true
        · simp [step, h2, hpr]
        · simp only [Bool.not_eq_true] at hpr
          simp [step, h2, hpr]; exact hst
      · rw [step_setupFail_noop s h2]; exact ⟨hph, hst⟩
  | iterEv o =>
      by_cases h2 : s.phase = looping
      · by_cases hpr : s.present = true
        · by_cases hstp : s.status = STOPPING
          · simp [step, h2, hpr, hstp]
          · cases o <;> simp [step, h2, hpr, hstp] <;> exact hst
        · simp only [Bool.not_eq_true] at hpr
          simp [step, h2, hpr]; exact hst
      · rw [step_iter_noop s o h2]; exact ⟨hph, hst⟩
  | stopEv =>
      by_cases hpr : s.present = true
      · simp [step, hpr]; exact hph
      · rw [step_stop_noop s (by simp [hpr])]; exact ⟨hph, hst⟩

theorem no_running_run (s : JobState)
    (h : s.phase ≠ preInit ∧ s.status ≠ RUNNING) (t : List Event) :
    (run s t).status ≠ RUNNING := by
  induction t generalizing s with
  | nil => exact h.2
  | cons e t ih => exact ih (step s e) (no_running_step s e h)

/-- C1, amended and proved.  If the stop request is observed after the
worker's initialization write — i.e. from a state where the worker is in
its loop with status `RUNNING` — then the stop sets `STOPPING`, the
worker's very next loop iteration sets `STOPPED` and exits (one cadence
interval of latency), and no later operation ever brings the status back
to `RUNNING`.  (A stop that lands before the initialization write is
overwritten and lost: see `claimC1_false`.) -/
theorem stop_after_init_stops (s : JobState)
    (hph : s.phase = looping) (_hst : s.status = RUNNING)
    (hpr : s.present = true) :
    (step s stopEv).status = STOPPING
      ∧ (∀ o : DeliverOutcome,
          (step (step s stopEv) (iterEv o)).status = STOPPED)
      ∧ (∀ t : List Event, (run (step s stopEv) t).status ≠ RUNNING) := by
  have h1 : step s stopEv = { s with status := STOPPING } := by
    simp [step, hpr]
  refine ⟨by rw [h1], fun o => ?_, fun t => ?_⟩
  · rw [h1]; simp [step, hph, hpr]
  · exact no_running_run _ (by rw [h1]; exact ⟨by simp [hph], by simp⟩) t

/-- Witness for `stop_after_init_stops`, at the state reached by
`init; setup ok` from a fresh registration. -/
theorem stop_after_init_stops_witness :
    (run startedState [initEv, setupOkEv]).phase = looping
      ∧ (run startedState [initEv, setupOkEv]).status = RUNNING
      ∧ (run startedState [initEv, setupOkEv]).present = true
      ∧ (step (run startedState [initEv, setupOkEv]) stopEv).status = STOPPING :=
  ⟨by decide, by decide, by decide,
    (stop_after_init_stops (run startedState [initEv, setupOkEv])
      (by decide) (by decide) (by decide)).1⟩

/-! ## C5: delivery-failure semantics

The `except` handler of each worker's main loop increments
`stats['errors']` by one and sleeps a fixed short backoff, leaving the
status untouched and continuing the loop: `time.sleep(1)` in the
snowpipe worker (line 551), `time.sleep(5)` in the raw-JSON S3 worker
(line 778) and in the external-stage worker (line 1369). -/

/-- Backoff applied by the snowpipe streaming worker's `except` handler
(`time.sleep(1)`, line 551). -/
def snowpipeErrorBackoffSeconds : ℕ := 1

/-- Backoff applied by the raw-JSON S3 worker's `except` handler
(`time.sleep(5)`, line 778). -/
def rawJsonS3ErrorBackoffSeconds : ℕ := 5

/-- Backoff applied by the external-stage worker's outer `except`
handler (`time.sleep(5)`, line 1369). -/
def externalStageErrorBackoffSeconds : ℕ := 5

/-- C5: while the destination is unreachable, each failing iteration of
a running job increments `stats.errors` by exactly one and changes
nothing else about the lifecycle: after `k` consecutive delivery
failures the status is still `RUNNING` (never `FAILED`), the worker is
still looping (so a later `stop_job` is honoured), `errors` has grown by
exactly `k`, and every error backoff is a fixed 1–5 second sleep. -/
theorem delivery_failures_counted (s : JobState)
    (hph : s.phase = looping) (hst : s.status = RUNNING)
    (hpr : s.present = true) (k : ℕ) :
    (run s (List.replicate k (iterEv failed))).status = RUNNING
      ∧ (run s (List.replicate k (iterEv failed))).phase = looping
      ∧ (run s (List.replicate k (iterEv failed))).errors = s.errors + k
      ∧ 1 ≤ snowpipeErrorBackoffSeconds ∧ snowpipeErrorBackoffSeconds ≤ 5
      ∧ 1 ≤ rawJsonS3ErrorBackoffSeconds ∧ rawJsonS3ErrorBackoffSeconds ≤ 5
      ∧ 1 ≤ externalStageErrorBackoffSeconds
      ∧ externalStageErrorBackoffSeconds ≤ 5 := by
  have key : ∀ k : ℕ, ∀ s : JobState, s.phase = looping →
      s.status = RUNNING → s.present = true →
      (run s (List.replicate k (iterEv failed))).status = RUNNING
        ∧ (run s (List.replicate k (iterEv failed))).phase = looping
        ∧ (run s (List.replicate k (iterEv failed))).errors = s.errors + k := by
    intro k
    induction k with
    | zero => intro s h1 h2 h3; simpa using ⟨h2, h1⟩
    | succ k ih =>
        intro s h1 h2 h3
        have hstep : step s (iterEv failed) =
            { s with errors := s.errors + 1 } := by
          simp [step, h1, h3, h2]
        rw [List.replicate_succ, run_cons, hstep]
        obtain ⟨a, b, c⟩ := ih { s with errors := s.errors + 1 } h1 h2 h3
        refine ⟨a, b, ?_⟩
        simp only at c
        omega
  obtain ⟨a, b, c⟩ := key k s hph hst hpr
  exact ⟨a, b, c, by decide, by decide, by decide, by decide,
    by decide, by decide⟩

/-- Witness for `delivery_failures_counted`: from the state reached by
`init; setup ok`, three consecutive delivery failures leave the job
`RUNNING` with `errors = 3`. -/
theorem delivery_failures_counted_witness :
    (run startedState [initEv, setupOkEv]).phase = looping
      ∧ (run startedState [initEv, setupOkEv]).status = RUNNING
      ∧ (run startedState [initEv, setupOkEv]).present = true
      ∧ (run (run startedState [initEv, setupOkEv])
            (List.replicate 3 (iterEv failed))).errors
          = (run startedState [initEv, setupOkEv]).errors + 3 :=
  ⟨by decide, by decide, by decide,
    (delivery_failures_counted (run startedState [initEv, setupOkEv])
      (by decide) (by decide) (by decide) 3).2.2.1⟩

/-! ## Python rounding

`generate_ami_reading` applies Python's built-in `round(x, nd)` to its
numeric fields.  On exact values this is round-half-to-even at `nd`
decimal places; we model the reals handled by the code as rationals. -/

/-- The integer `round(x * 10^nd)` with banker's (half-to-even)
tie-breaking, as Python's `round` computes it on exact input. -/
def pyRoundInt (nd : ℕ) (x : ℚ) : ℤ :=
  if x * 10 ^ nd - ⌊x * 10 ^ nd⌋ < 1/2 then ⌊x * 10 ^ nd⌋
  else if 1/2 < x * 10 ^ nd - ⌊x * 10 ^ nd⌋ then ⌊x * 10 ^ nd⌋ + 1
  else if ⌊x * 10 ^ nd⌋ % 2 = 0 then ⌊x * 10 ^ nd⌋ else ⌊x * 10 ^ nd⌋ + 1

/-- Python's `round(x, nd)`. -/
def pyRound (nd : ℕ) (x : ℚ) : ℚ := (pyRoundInt nd x : ℚ) / 10 ^ nd

theorem floor_le_pyRoundInt (nd : ℕ) (x : ℚ) :
    ⌊x * 10 ^ nd⌋ ≤ pyRoundInt nd x := by
  unfold pyRoundInt; split_ifs <;> omega

theorem pyRoundInt_le_floor_add_one (nd : ℕ) (x : ℚ) :
    pyRoundInt nd x ≤ ⌊x * 10 ^ nd⌋ + 1 := by
  unfold pyRoundInt; split_ifs <;> omega

/-- Rounding cannot cross an exactly representable lower bound. -/
theorem le_pyRound (nd : ℕ) (A : ℤ) (x : ℚ) (h : (A : ℚ) / 10 ^ nd ≤ x) :
    (A : ℚ) / 10 ^ nd ≤ pyRound nd x := by
  have hm : (0 : ℚ) < 10 ^ nd := by positivity
  have hA : (A : ℚ) ≤ x * 10 ^ nd := (div_le_iff₀ hm).mp h
  have h1 : A ≤ ⌊x * 10 ^ nd⌋ := Int.le_floor.mpr hA
  have h2 : (A : ℚ) ≤ (pyRoundInt nd x : ℚ) := by
    exact_mod_cast le_trans h1 (floor_le_pyRoundInt nd x)
  exact (div_le_div_iff_of_pos_right hm).mpr h2

/-- Rounding cannot cross an exactly representable upper bound. -/
theorem pyRound_le (nd : ℕ) (B : ℤ) (x : ℚ) (h : x ≤ (B : ℚ) / 10 ^ nd) :
    pyRound nd x ≤ (B : ℚ) / 10 ^ nd := by
  have hm : (0 : ℚ) < 10 ^ nd := by positivity
  have hB : x * 10 ^ nd ≤ (B : ℚ) := (le_div_iff₀ hm).mp h
  have h1 : ⌊x * 10 ^ nd⌋ ≤ B := by
    have := Int.floor_le_floor hB
    simpa using this
  have h2 : pyRoundInt nd x ≤ B := by
    rcases lt_or_le ⌊x * 10 ^ nd⌋ B with hlt | hge
    · exact le_trans (pyRoundInt_le_floor_add_one nd x) (by omega)
    · have heq : ⌊x * 10 ^ nd⌋ = B := le_antisymm h1 hge
      have hfl : (⌊x * 10 ^ nd⌋ : ℚ) = (B : ℚ) := by exact_mod_cast heq
      have hr : x * 10 ^ nd - ⌊x * 10 ^ nd⌋ < 1/2 := by
        rw [hfl]; linarith
      unfold pyRoundInt
      rw [if_pos hr, heq]
  have h3 : (pyRoundInt nd x : ℚ) ≤ (B : ℚ) := by exact_mod_cast h2
  exact (div_le_div_iff_of_pos_right hm).mpr h3

/-! ## Reading synthesizer (`generate_ami_reading`, lines 346–397)

The function is deterministic in the wall-clock hour, the meter dict and
the values produced by the RNG calls, so we pass those in explicitly.
`random.uniform(a, b)` returns a value in `[a, b]` and
`random.randint(1, 100)` a value in `[1, 100]`; `ValidDraws` records
exactly these range guarantees.  The `READING_TIMESTAMP` field
(`datetime.now()`) is wall-clock time and is left out of the embedding;
no claim mentions it. -/

/-- The `meter_info` dict passed to `generate_ami_reading`; every field
is read with `.get`, so every field may be absent. -/
structure MeterInfo where
  meter_id : Option String
  transformer_id : Option String
  circuit_id : Option String
  substation_id : Option String
  customer_segment : Option String
  latitude : Option ℚ
  longitude : Option ℚ
  production_matched : Option Bool
deriving DecidableEq, Repr

/-- The random draws consumed by one call of `generate_ami_reading`, in
source order. -/
structure Draws where
  /-- `random.uniform` of the chosen time-of-day branch (lines 352–358). -/
  baseUsage : ℚ
  /-- `random.randint(1, 100)` (line 369). -/
  qualityRoll : ℕ
  /-- `random.uniform(118, 122)` (line 386). -/
  voltageDraw : ℚ
  /-- `random.uniform(0.92, 0.99)` (line 387). -/
  powerFactorDraw : ℚ
  /-- `random.uniform(15, 35)` (line 388). -/
  temperatureDraw : ℚ
  /-- `f'MTR-{uuid.uuid4().hex[:8].upper()}'`, the fallback meter id
  (line 380). -/
  fallbackMeterId : String
deriving DecidableEq, Repr

/-- Range guarantees of Python's RNG for the draws consumed at wall
clock hour `hour`. -/
def ValidDraws (hour : ℕ) (d : Draws) : Prop :=
  (if 14 ≤ hour ∧ hour ≤ 19 then
      (1.5 : ℚ) ≤ d.baseUsage ∧ d.baseUsage ≤ 3.5
   else if 6 ≤ hour ∧ hour ≤ 9 then
      (1 : ℚ) ≤ d.baseUsage ∧ d.baseUsage ≤ 2.5
   else (0.3 : ℚ) ≤ d.baseUsage ∧ d.baseUsage ≤ 1.5)
  ∧ (1 ≤ d.qualityRoll ∧ d.qualityRoll ≤ 100)
  ∧ ((118 : ℚ) ≤ d.voltageDraw ∧ d.voltageDraw ≤ 122)
  ∧ ((0.92 : ℚ) ≤ d.powerFactorDraw ∧ d.powerFactorDraw ≤ 0.99)
  ∧ ((15 : ℚ) ≤ d.temperatureDraw ∧ d.temperatureDraw ≤ 35)

instance (hour : ℕ) (d : Draws) : Decidable (ValidDraws hour d) := by
  unfold ValidDraws; infer_instance

/-- The dict returned by `generate_ami_reading` (lines 379–397), minus
the wall-clock `READING_TIMESTAMP`. -/
structure Reading where
  METER_ID : String
  TRANSFORMER_ID : Option String
  CIRCUIT_ID : Option String
  SUBSTATION_ID : Option String
  USAGE_KWH : ℚ
  VOLTAGE : ℚ
  POWER_FACTOR : ℚ
  TEMPERATURE_C : ℚ
  SERVICE_AREA : String
  CUSTOMER_SEGMENT : String
  LATITUDE : Option ℚ
  LONGITUDE : Option ℚ
  IS_OUTAGE : Bool
  DATA_QUALITY : String
  PRODUCTION_MATCHED : Bool
  EMISSION_PATTERN : String
deriving DecidableEq, Repr

/-- `generate_ami_reading(meter_info, service_area, emission_pattern)`
at wall-clock hour `hour` with RNG draws `d` (lines 346–397). -/
def generate_ami_reading (meter_info : MeterInfo)
    (service_area emission_pattern : String) (_hour : ℕ) (d : Draws) :
    Reading :=
  -- lines 352-358: the branch only selects the uniform range; the drawn
  -- value is d.baseUsage, constrained by ValidDraws.
  let base_usage := d.baseUsage
  -- lines 360-367
  let segment := meter_info.customer_segment.getD "RESIDENTIAL"
  let usage_multiplier : ℚ :=
    if segment = "INDUSTRIAL" then 15
    else if segment = "COMMERCIAL" then 5
    else 1
  { METER_ID := meter_info.meter_id.getD d.fallbackMeterId
    TRANSFORMER_ID := meter_info.transformer_id
    CIRCUIT_ID := meter_info.circuit_id
    SUBSTATION_ID := meter_info.substation_id
    USAGE_KWH := pyRound 4 (base_usage * usage_multiplier)
    VOLTAGE := pyRound 2 d.voltageDraw
    POWER_FACTOR := pyRound 3 d.powerFactorDraw
    TEMPERATURE_C := pyRound 1 d.temperatureDraw
    SERVICE_AREA := service_area
    CUSTOMER_SEGMENT := segment
    LATITUDE := meter_info.latitude
    LONGITUDE := meter_info.longitude
    -- lines 369-377: quality roll
    IS_OUTAGE := decide (d.qualityRoll ≤ 1)
    DATA_QUALITY :=
      if d.qualityRoll ≤ 1 then "OUTAGE"
      else if 98 ≤ d.qualityRoll then "ANOMALY"
      else "VALID"
    PRODUCTION_MATCHED := meter_info.production_matched.getD false
    EMISSION_PATTERN := emission_pattern }

/-- C3: every reading produced by `generate_ami_reading` from in-range
RNG draws has positive `USAGE_KWH`, a power factor in `[0.92, 0.99]`, a
data quality in `{VALID, ANOMALY, OUTAGE}` with `IS_OUTAGE` holding
exactly for `OUTAGE`, and the quality is decided by the 1–100 roll:
`≤ 1 → OUTAGE`, `≥ 98 → ANOMALY`, else `VALID`. -/
theorem ami_reading_well_formed (meter_info : MeterInfo)
    (service_area emission_pattern : String) (hour : ℕ) (d : Draws)
    (hd : ValidDraws hour d) :
    0 < (generate_ami_reading meter_info service_area emission_pattern
          hour d).USAGE_KWH
    ∧ (0.92 : ℚ) ≤ (generate_ami_reading meter_info service_area
          emission_pattern hour d).POWER_FACTOR
    ∧ (generate_ami_reading meter_info service_area emission_pattern
          hour d).POWER_FACTOR ≤ 0.99
    ∧ ((generate_ami_reading meter_info service_area emission_pattern
          hour d).DATA_QUALITY = "VALID"
        ∨ (generate_ami_reading meter_info service_area emission_pattern
          hour d).DATA_QUALITY = "ANOMALY"
        ∨ (generate_ami_reading meter_info service_area emission_pattern
          hour d).DATA_QUALITY = "OUTAGE")
    ∧ ((generate_ami_reading meter_info service_area emission_pattern
          hour d).IS_OUTAGE = true
        ↔ (generate_ami_reading meter_info service_area emission_pattern
          hour d).DATA_QUALITY = "OUTAGE")
    ∧ (d.qualityRoll ≤ 1 →
        (generate_ami_reading meter_info service_area emission_pattern
          hour d).DATA_QUALITY = "OUTAGE")
    ∧ (98 ≤ d.qualityRoll →
        (generate_ami_reading meter_info service_area emission_pattern
          hour d).DATA_QUALITY = "ANOMALY")
    ∧ (1 < d.qualityRoll → d.qualityRoll < 98 →
        (generate_ami_reading meter_info service_area emission_pattern
          hour d).DATA_QUALITY = "VALID") := by
  obtain ⟨hbase, _hroll, _hv, ⟨hpf1, hpf2⟩, _ht⟩ := hd
  have h03 : (0.3 : ℚ) ≤ d.baseUsage := by
    split_ifs at hbase with h1 h2
    · linarith [hbase.1]
    · linarith [hbase.1]
    · exact hbase.1
  refine ⟨?_, ?_, ?_, ?_, ?_, ?_, ?_, ?_⟩
  · -- USAGE_KWH > 0
    show 0 < pyRound 4 (d.baseUsage *
      (if meter_info.customer_segment.getD "RESIDENTIAL" = "INDUSTRIAL"
        then (15 : ℚ)
       else if meter_info.customer_segment.getD "RESIDENTIAL" = "COMMERCIAL"
        then 5 else 1))
    have hmul : (1 : ℚ) ≤
        (if meter_info.customer_segment.getD "RESIDENTIAL" = "INDUSTRIAL"
          then (15 : ℚ)
         else if meter_info.customer_segment.getD "RESIDENTIAL" = "COMMERCIAL"
          then 5 else 1) := by
      split_ifs <;> norm_num
    have hx : (0.3 : ℚ) ≤ d.baseUsage *
        (if meter_info.customer_segment.getD "RESIDENTIAL" = "INDUSTRIAL"
          then (15 : ℚ)
         else if meter_info.customer_segment.getD "RESIDENTIAL" = "COMMERCIAL"
          then 5 else 1) := by
      calc (0.3 : ℚ) = 0.3 * 1 := by ring
      _ ≤ d.baseUsage * _ :=
        mul_le_mul h03 hmul (by norm_num) (by linarith)
    have := le_pyRound 4 3000 _ (by
      calc ((3000 : ℤ) : ℚ) / 10 ^ 4 = 0.3 := by norm_num
      _ ≤ _ := hx)
    calc (0 : ℚ) < ((3000 : ℤ) : ℚ) / 10 ^ 4 := by norm_num
    _ ≤ _ := this
  · -- POWER_FACTOR ≥ 0.92
    show (0.92 : ℚ) ≤ pyRound 3 d.powerFactorDraw
    have := le_pyRound 3 920 d.powerFactorDraw (by
      calc ((920 : ℤ) : ℚ) / 10 ^ 3 = 0.92 := by norm_num
      _ ≤ _ := hpf1)
    calc (0.92 : ℚ) = ((920 : ℤ) : ℚ) / 10 ^ 3 := by norm_num
    _ ≤ _ := this
  · -- POWER_FACTOR ≤ 0.99
    show pyRound 3 d.powerFactorDraw ≤ (0.99 : ℚ)
    have := pyRound_le 3 990 d.powerFactorDraw (by
      calc d.powerFactorDraw ≤ 0.99 := hpf2
      _ = ((990 : ℤ) : ℚ) / 10 ^ 3 := by norm_num)
    calc pyRound 3 d.powerFactorDraw ≤ ((990 : ℤ) : ℚ) / 10 ^ 3 := this
    _ = (0.99 : ℚ) := by norm_num
  · -- DATA_QUALITY membership
    show (if d.qualityRoll ≤ 1 then "OUTAGE"
        else if 98 ≤ d.qualityRoll then "ANOMALY" else "VALID") = "VALID"
      ∨ (if d.qualityRoll ≤ 1 then "OUTAGE"
        else if 98 ≤ d.qualityRoll then "ANOMALY" else "VALID") = "ANOMALY"
      ∨ (if d.qualityRoll ≤ 1 then "OUTAGE"
        else if 98 ≤ d.qualityRoll then "ANOMALY" else "VALID") = "OUTAGE"
    split_ifs <;> simp
  · -- IS_OUTAGE iff OUTAGE
    show decide (d.qualityRoll ≤ 1) = true ↔
      (if d.qualityRoll ≤ 1 then "OUTAGE"
        else if 98 ≤ d.qualityRoll then "ANOMALY" else "VALID") = "OUTAGE"
    split_ifs with h1 h2 <;> simp [h1]
  · intro h
    show (if d.qualityRoll ≤ 1 then "OUTAGE"
      else if 98 ≤ d.qualityRoll then "ANOMALY" else "VALID") = "OUTAGE"
    simp [h]
  · intro h
    show (if d.qualityRoll ≤ 1 then "OUTAGE"
      else if 98 ≤ d.qualityRoll then "ANOMALY" else "VALID") = "ANOMALY"
    rw [if_neg (by omega), if_pos h]
  · intro h1 h2
    show (if d.qualityRoll ≤ 1 then "OUTAGE"
      else if 98 ≤ d.qualityRoll then "ANOMALY" else "VALID") = "VALID"
    rw [if_neg (by omega), if_neg (by omega)]

/-- Concrete draw record for the generator witnesses. -/
def witnessDraws : Draws :=
  { baseUsage := 1/2, qualityRoll := 50, voltageDraw := 120,
    powerFactorDraw := 95/100, temperatureDraw := 20,
    fallbackMeterId := "MTR-0A1B2C3D" }

/-- Concrete meter dict for the generator witnesses. -/
def witnessMeter : MeterInfo :=
  { meter_id := some "MTR-TEX-000007", transformer_id := none,
    circuit_id := none, substation_id := none,
    customer_segment := some "COMMERCIAL", latitude := none,
    longitude := none, production_matched := some false }

/-- Witness for `ami_reading_well_formed` at hour 3 with mid-range
draws. -/
theorem ami_reading_well_formed_witness :
    ValidDraws 3 witnessDraws
      ∧ 0 < (generate_ami_reading witnessMeter "TEXAS_GULF_COAST"
          "STAGGERED_REALISTIC" 3 witnessDraws).USAGE_KWH :=
  ⟨by norm_num [ValidDraws, witnessDraws],
    (ami_reading_well_formed witnessMeter "TEXAS_GULF_COAST"
      "STAGGERED_REALISTIC" 3 witnessDraws
      (by norm_num [ValidDraws, witnessDraws])).1⟩

/-! ### C8: the voltage distribution -/

/-- Claim C8 as stated: `VOLTAGE` is drawn from `Normal(120, 2)` with
2 % low and 2 % high excursion events.  A normal distribution has
unbounded support, and the repository's own excursion model for the
task-based generator (fastapi_app.py lines 7279–7281) places the
excursions in `[105, 110]` and `[128, 135]` — so the claim entails that
some run of the generator with in-range RNG draws produces a voltage
outside the band `[118, 122]`. -/
def claimC8Statement : Prop :=
  ∃ (meter_info : MeterInfo) (service_area emission_pattern : String)
    (hour : ℕ) (d : Draws),
    ValidDraws hour d ∧
    ((generate_ami_reading meter_info service_area emission_pattern
        hour d).VOLTAGE < 118
      ∨ 122 < (generate_ami_reading meter_info service_area
        emission_pattern hour d).VOLTAGE)

/-- C8, counterexample: the claim is false on the code.  Line 386 is
`round(random.uniform(118, 122), 2)` — a uniform draw on `[118, 122]`,
not a normal draw — so no reading ever has a voltage outside
`[118, 122]` and excursion events do not exist. -/
theorem claimC8_false : ¬ claimC8Statement := by
  rintro ⟨mi, sa, ep, hour, d, hd, hout⟩
  obtain ⟨_, _, ⟨hv1, hv2⟩, _, _⟩ := hd
  have hlo : (118 : ℚ) ≤ pyRound 2 d.voltageDraw := by
    have := le_pyRound 2 11800 d.voltageDraw (by push_cast; norm_num; linarith)
    calc (118 : ℚ) = ((11800 : ℤ) : ℚ) / 10 ^ 2 := by norm_num
    _ ≤ _ := this
  have hhi : pyRound 2 d.voltageDraw ≤ (122 : ℚ) := by
    have := pyRound_le 2 12200 d.voltageDraw (by push_cast; norm_num; linarith)
    calc pyRound 2 d.voltageDraw ≤ ((12200 : ℤ) : ℚ) / 10 ^ 2 := this
    _ = (122 : ℚ) := by norm_num
  cases hout with
  | inl h => exact absurd h (by simp only [generate_ami_reading]; linarith)
  | inr h => exact absurd h (by simp only [generate_ami_reading]; linarith)

/-- C8, amended and proved: `VOLTAGE` is `round(u, 2)` of a uniform
draw `u ∈ [118, 122]` (line 386); in particular it always lies in
`[118, 122]`, with no normal draw and no excursion branch. -/
theorem voltage_is_rounded_uniform_band (meter_info : MeterInfo)
    (service_area emission_pattern : String) (hour : ℕ) (d : Draws)
    (hd : ValidDraws hour d) :
    (generate_ami_reading meter_info service_area emission_pattern
        hour d).VOLTAGE = pyRound 2 d.voltageDraw
    ∧ (118 : ℚ) ≤ (generate_ami_reading meter_info service_area
        emission_pattern hour d).VOLTAGE
    ∧ (generate_ami_reading meter_info service_area emission_pattern
        hour d).VOLTAGE ≤ 122 := by
  obtain ⟨_, _, ⟨hv1, hv2⟩, _, _⟩ := hd
  refine ⟨rfl, ?_, ?_⟩
  · show (118 : ℚ) ≤ pyRound 2 d.voltageDraw
    have := le_pyRound 2 11800 d.voltageDraw (by push_cast; norm_num; linarith)
    calc (118 : ℚ) = ((11800 : ℤ) : ℚ) / 10 ^ 2 := by norm_num
    _ ≤ _ := this
  · show pyRound 2 d.voltageDraw ≤ (122 : ℚ)
    have := pyRound_le 2 12200 d.voltageDraw (by push_cast; norm_num; linarith)
    calc pyRound 2 d.voltageDraw ≤ ((12200 : ℤ) : ℚ) / 10 ^ 2 := this
    _ = (122 : ℚ) := by norm_num

/-- Witness for `voltage_is_rounded_uniform_band` at hour 3 with
mid-range draws. -/
theorem voltage_is_rounded_uniform_band_witness :
    ValidDraws 3 witnessDraws
      ∧ (118 : ℚ) ≤ (generate_ami_reading witnessMeter "TEXAS_GULF_COAST"
          "STAGGERED_REALISTIC" 3 witnessDraws).VOLTAGE :=
  ⟨by norm_num [ValidDraws, witnessDraws],
    (voltage_is_rounded_uniform_band witnessMeter "TEXAS_GULF_COAST"
      "STAGGERED_REALISTIC" 3 witnessDraws
      (by norm_num [ValidDraws, witnessDraws])).2.1⟩

/-! ## Session provider (`get_valid_session`, lines 305–343)

The function is deterministic in: the current global `snowflake_session`,
the outcome of `create_snowflake_session()`, the outcome of the
`SELECT 1` test query on the session in hand, and the outcome of the
re-creation attempt.  Session handles are modelled as `ℕ`; each outcome
is passed in as an `Except`. -/

/-- ASCII lower-casing of one character, as Python's `str.lower()` does
on the ASCII error texts involved. -/
def asciiLowerChar (c : Char) : Char :=
  if 'A' ≤ c ∧ c ≤ 'Z' then Char.ofNat (c.toNat + 32) else c

/-- Python's `str.lower()` on ASCII text. -/
def pyLower (s : String) : String := String.mk (s.data.map asciiLowerChar)

/-- `needle` is a prefix of `hay`. -/
def charsStartWith : List Char → List Char → Bool
  | [], _ => true
  | _ :: _, [] => false
  | a :: as, b :: bs => a == b && charsStartWith as bs

/-- Python's `in` on strings: `needle` occurs contiguously in `hay`. -/
def containsSub (needle : List Char) : List Char → Bool
  | [] => charsStartWith needle []
  | c :: rest => charsStartWith needle (c :: rest) || containsSub needle rest

/-- The error signature recognized at line 326:
`'390114' in error_str or 'token' in error_str.lower() and 'expired' in
error_str.lower()` (Python parses this as `A or (B and C)`). -/
def isTokenExpired (e : String) : Bool :=
  containsSub "390114".data e.data
    || (containsSub "token".data (pyLower e).data
        && containsSub "expired".data (pyLower e).data)

/-- Result of a `get_valid_session()` call: a session handle, `None`,
or a re-raised exception. -/
inductive SessResult where
  | ok (handle : ℕ)
  | noSession
  | raised (msg : String)
deriving DecidableEq, Repr

/-- Lines 321–343: test the session in hand with `SELECT 1`; on an
expiry-signature error close the stale handle (best-effort, recorded in
the second component) and re-create; on any other error re-raise.  -/
def sessionAfterTest (s : ℕ) (testRes : ℕ → Except String Unit)
    (recreateRes : Except String ℕ) : SessResult × List ℕ :=
  match testRes s with
  | Except.ok _ => (SessResult.ok s, [])
  | Except.error e =>
    if isTokenExpired e then
      match recreateRes with
      | Except.ok s2 => (SessResult.ok s2, [s])
      | Except.error _ => (SessResult.noSession, [s])
    else (SessResult.raised e, [])

/-- `get_valid_session()` (lines 305–343).  When no global session
exists it first tries `create_snowflake_session()`, returning `None` on
failure (lines 312–317); then the session in hand is tested. -/
def get_valid_session (current : Option ℕ) (createRes : Except String ℕ)
    (testRes : ℕ → Except String Unit) (recreateRes : Except String ℕ) :
    SessResult × List ℕ :=
  match current with
  | none =>
    match createRes with
    | Except.error _ => (SessResult.noSession, [])
    | Except.ok s => sessionAfterTest s testRes recreateRes
  | some s => sessionAfterTest s testRes recreateRes

/-- C6: when the test query on an existing session fails,
`get_valid_session` recovers exactly when the error carries the token
expiry signature (code 390114, or "token" and "expired" in the lowered
message): it then closes the stale handle and returns the re-created
one (or `None` when re-creation fails too); on any other error the
exception propagates to the caller. -/
theorem session_recovers_only_from_expiry (s : ℕ)
    (createRes : Except String ℕ) (testRes : ℕ → Except String Unit)
    (recreateRes : Except String ℕ) (e : String)
    (ht : testRes s = Except.error e) :
    (isTokenExpired e = true →
      (∀ s2, recreateRes = Except.ok s2 →
        get_valid_session (some s) createRes testRes recreateRes
          = (SessResult.ok s2, [s]))
      ∧ (∀ msg, recreateRes = Except.error msg →
        get_valid_session (some s) createRes testRes recreateRes
          = (SessResult.noSession, [s])))
    ∧ (isTokenExpired e = false →
        get_valid_session (some s) createRes testRes recreateRes
          = (SessResult.raised e, [])) := by
  refine ⟨fun hexp => ⟨fun s2 hr => ?_, fun msg hr => ?_⟩, fun hexp => ?_⟩
  · simp [get_valid_session, sessionAfterTest, ht, hexp, hr]
  · simp [get_valid_session, sessionAfterTest, ht, hexp, hr]
  · simp [get_valid_session, sessionAfterTest, ht, hexp]

/-- Witness for `session_recovers_only_from_expiry`: a JWT-expiry
message is recovered (handle 1 closed, new handle 2 returned), a
compilation error is re-raised. -/
theorem session_recovers_only_from_expiry_witness :
    isTokenExpired "Authentication token has expired" = true
      ∧ isTokenExpired "SQL compilation error: syntax error" = false
      ∧ get_valid_session (some 1) (Except.ok 1)
          (fun _ => Except.error "Authentication token has expired")
          (Except.ok 2) = (SessResult.ok 2, [1])
      ∧ get_valid_session (some 1) (Except.ok 1)
          (fun _ => Except.error "SQL compilation error: syntax error")
          (Except.ok 2)
          = (SessResult.raised "SQL compilation error: syntax error", []) :=
  ⟨by decide, by decide,
    ((session_recovers_only_from_expiry 1 (Except.ok 1)
      (fun _ => Except.error "Authentication token has expired")
      (Except.ok 2) "Authentication token has expired" rfl).1
      (by decide)).1 2 rfl,
    (session_recovers_only_from_expiry 1 (Except.ok 1)
      (fun _ => Except.error "SQL compilation error: syntax error")
      (Except.ok 2) "SQL compilation error: syntax error" rfl).2
      (by decide)⟩

/-! ## Decimal formatting

`start_stream` builds the job id with
`datetime.utcnow().strftime('%Y%m%d_%H%M%S')` (line 7416) and the
synthetic meter ids with zero-padded `f'{i:06d}'`-style fields
(lines 484–487).  We model decimal formatting with zero padding. -/

/-- Least-significant-first decimal digits of `n`, with fuel (the fuel
`n` itself always suffices). -/
def digitsLSB : ℕ → ℕ → List ℕ
  | 0, _ => []
  | _ + 1, 0 => []
  | f + 1, n + 1 => ((n + 1) % 10) :: digitsLSB f ((n + 1) / 10)

/-- Python's `str(n)` for a natural number. -/
def natDigits (n : ℕ) : List Char :=
  if n = 0 then ['0'] else ((digitsLSB n n).map Nat.digitChar).reverse

/-- Python's zero-padded fixed-width decimal field, as produced by
`f'{n:0wd}'` and by every `strftime` directive used in the job id. -/
def pyPad (w n : ℕ) : List Char :=
  List.replicate (w - (natDigits n).length) '0' ++ natDigits n

/-- Numeric value of a decimal digit character. -/
def charVal (c : Char) : ℕ := c.toNat - '0'.toNat

/-- Value of a most-significant-first digit string. -/
def charsToNat (l : List Char) : ℕ :=
  l.foldl (fun a c => 10 * a + charVal c) 0

/-- Value of a least-significant-first digit list. -/
def valLSB (l : List ℕ) : ℕ := l.foldr (fun d a => d + 10 * a) 0

theorem digitsLSB_val : ∀ f n : ℕ, n ≤ f → valLSB (digitsLSB f n) = n := by
  intro f
  induction f with
  | zero => intro n h; interval_cases n; rfl
  | succ f ih =>
      intro n h
      match n with
      | 0 => rfl
      | n + 1 =>
          have hdiv : (n + 1) / 10 ≤ f := by
            have := Nat.div_lt_self (Nat.succ_pos n) (by norm_num : 1 < 10)
            omega
          simp only [digitsLSB, valLSB, List.foldr_cons]
          have := ih ((n + 1) / 10) hdiv
          simp only [valLSB] at this
          rw [this]
          omega

theorem digitsLSB_lt : ∀ f n d : ℕ, d ∈ digitsLSB f n → d < 10 := by
  intro f
  induction f with
  | zero => intro n d h; simp [digitsLSB] at h
  | succ f ih =>
      intro n d h
      match n with
      | 0 => simp [digitsLSB] at h
      | n + 1 =>
          simp only [digitsLSB, List.mem_cons] at h
          cases h with
          | inl h => omega
          | inr h => exact ih _ d h

theorem charVal_digitChar (d : ℕ) (h : d < 10) :
    charVal (Nat.digitChar d) = d := by
  interval_cases d <;> rfl

theorem charsToNat_digits (l : List ℕ) (h : ∀ d ∈ l, d < 10) :
    charsToNat ((l.map Nat.digitChar).reverse) = valLSB l := by
  induction l with
  | nil => rfl
  | cons d t ih =>
      simp only [List.map_cons, List.reverse_cons, charsToNat,
        List.foldl_append, List.foldl_cons, List.foldl_nil]
      have ht := ih (fun x hx => h x (List.mem_cons_of_mem d hx))
      simp only [charsToNat] at ht
      rw [ht, charVal_digitChar d (h d (List.mem_cons_self d t))]
      simp only [valLSB, List.foldr_cons]
      ring

theorem charsToNat_natDigits (n : ℕ) : charsToNat (natDigits n) = n := by
  by_cases h : n = 0
  · subst h; rfl
  · simp only [natDigits, if_neg h]
    rw [charsToNat_digits _ (digitsLSB_lt n n)]
    exact digitsLSB_val n n le_rfl

theorem charsToNat_pad_zeros (k : ℕ) (ds : List Char) :
    charsToNat (List.replicate k '0' ++ ds) = charsToNat ds := by
  induction k with
  | zero => rfl
  | succ k ih =>
      simp only [List.replicate_succ, List.cons_append, charsToNat,
        List.foldl_cons]
      have : 10 * 0 + charVal '0' = 0 := rfl
      rw [this]
      exact ih

/-- Zero padding never destroys the numeric value. -/
theorem charsToNat_pyPad (w n : ℕ) : charsToNat (pyPad w n) = n := by
  unfold pyPad
  rw [charsToNat_pad_zeros, charsToNat_natDigits]

/-- A fixed-width zero-padded decimal field determines its value. -/
theorem pyPad_inj (w n m : ℕ) (h : pyPad w n = pyPad w m) : n = m := by
  have := congrArg charsToNat h
  rwa [charsToNat_pyPad, charsToNat_pyPad] at this

theorem digitsLSB_len : ∀ f n w : ℕ, n ≤ f → n < 10 ^ w →
    (digitsLSB f n).length ≤ w := by
  intro f
  induction f with
  | zero => intro n w _ _; simp [digitsLSB]
  | succ f ih =>
      intro n w h hw
      match n with
      | 0 => simp [digitsLSB]
      | n + 1 =>
          match w with
          | 0 => simp at hw
          | w + 1 =>
              have hdiv : (n + 1) / 10 ≤ f := by
                have := Nat.div_lt_self (Nat.succ_pos n) (by norm_num : 1 < 10)
                omega
              have hlt : (n + 1) / 10 < 10 ^ w := by
                rw [Nat.div_lt_iff_lt_mul (by norm_num : 0 < 10)]
                calc n + 1 < 10 ^ (w + 1) := hw
                _ = 10 ^ w * 10 := by ring
              have := ih ((n + 1) / 10) w hdiv hlt
              simp only [digitsLSB, List.length_cons]
              omega

theorem natDigits_len (w n : ℕ) (hw : 1 ≤ w) (h : n < 10 ^ w) :
    (natDigits n).length ≤ w := by
  by_cases h0 : n = 0
  · subst h0; simpa [natDigits] using hw
  · simp only [natDigits, if_neg h0, List.length_reverse, List.length_map]
    exact digitsLSB_len n n w le_rfl h

/-- A value below `10 ^ w` pads to exactly `w` characters. -/
theorem pyPad_len (w n : ℕ) (hw : 1 ≤ w) (h : n < 10 ^ w) :
    (pyPad w n).length = w := by
  have := natDigits_len w n hw h
  simp only [pyPad, List.length_append, List.length_replicate]
  omega

/-! ## Job id generation (`start_stream`, line 7416)

`job_id = f"flux_stream_{datetime.utcnow().strftime('%Y%m%d_%H%M%S')}"`
— the UTC start time truncated to whole seconds, so the microsecond
component of the start time never reaches the id. -/

/-- A `datetime.utcnow()` value. -/
structure UTCTime where
  year : ℕ
  month : ℕ
  day : ℕ
  hour : ℕ
  minute : ℕ
  second : ℕ
  microsecond : ℕ
deriving DecidableEq, Repr

/-- Field ranges of a `datetime` value, as far as the fixed-width
`strftime` encoding relies on them. -/
def validTimeFields (t : UTCTime) : Prop :=
  t.year < 10 ^ 4 ∧ t.month < 10 ^ 2 ∧ t.day < 10 ^ 2
    ∧ t.hour < 10 ^ 2 ∧ t.minute < 10 ^ 2 ∧ t.second < 10 ^ 2

instance (t : UTCTime) : Decidable (validTimeFields t) := by
  unfold validTimeFields; infer_instance

/-- The job id assigned by `start_stream` at start time `t`
(line 7416): `flux_stream_` followed by
`strftime('%Y%m%d_%H%M%S')`. -/
def jobIdChars (t : UTCTime) : List Char :=
  "flux_stream_".data ++ (pyPad 4 t.year ++ (pyPad 2 t.month
    ++ (pyPad 2 t.day ++ ("_".data ++ (pyPad 2 t.hour
    ++ (pyPad 2 t.minute ++ pyPad 2 t.second))))))

/-- Claim C9 as stated: any two start calls (here: at any two distinct
start times) receive distinct job ids. -/
def claimC9Statement : Prop :=
  ∀ t1 t2 : UTCTime, t1 ≠ t2 → jobIdChars t1 ≠ jobIdChars t2

/-- C9, counterexample: the claim is false on the code.  The job id has
only second resolution, so two start calls within the same UTC second —
here 2026-10-12 09:30:05, at microseconds 111111 and 222222 — are
assigned the identical id `flux_stream_20261012_093005`, and the second
registration overwrites the first in `active_streaming_jobs`. -/
theorem claimC9_false : ¬ claimC9Statement := by
  intro h
  exact h ⟨2026, 10, 12, 9, 30, 5, 111111⟩ ⟨2026, 10, 12, 9, 30, 5, 222222⟩
    (by decide) rfl

/-- C9, amended and proved: job ids are distinct exactly as far as the
second-truncated UTC start times are — two starts whose timestamps agree
on year through second collide (see `claimC9_false`), while equality of
the ids forces every `strftime`-encoded field to agree. -/
theorem job_id_determines_second (t1 t2 : UTCTime)
    (h1 : validTimeFields t1) (h2 : validTimeFields t2)
    (h : jobIdChars t1 = jobIdChars t2) :
    t1.year = t2.year ∧ t1.month = t2.month ∧ t1.day = t2.day
      ∧ t1.hour = t2.hour ∧ t1.minute = t2.minute
      ∧ t1.second = t2.second := by
  obtain ⟨hy1, hmo1, hd1, hh1, hmi1, hs1⟩ := h1
  obtain ⟨hy2, hmo2, hd2, hh2, hmi2, hs2⟩ := h2
  unfold jobIdChars at h
  have e0 := (List.append_inj h rfl).2
  have e1 := List.append_inj e0
    (by rw [pyPad_len 4 _ (by norm_num) hy1, pyPad_len 4 _ (by norm_num) hy2])
  have e2 := List.append_inj e1.2
    (by rw [pyPad_len 2 _ (by norm_num) hmo1, pyPad_len 2 _ (by norm_num) hmo2])
  have e3 := List.append_inj e2.2
    (by rw [pyPad_len 2 _ (by norm_num) hd1, pyPad_len 2 _ (by norm_num) hd2])
  have e4 := (List.append_inj e3.2 rfl).2
  have e5 := List.append_inj e4
    (by rw [pyPad_len 2 _ (by norm_num) hh1, pyPad_len 2 _ (by norm_num) hh2])
  have e6 := List.append_inj e5.2
    (by rw [pyPad_len 2 _ (by norm_num) hmi1, pyPad_len 2 _ (by norm_num) hmi2])
  exact ⟨pyPad_inj _ _ _ e1.1, pyPad_inj _ _ _ e2.1, pyPad_inj _ _ _ e3.1,
    pyPad_inj _ _ _ e5.1, pyPad_inj _ _ _ e6.1, pyPad_inj _ _ _ e6.2⟩

/-- Witness for `job_id_determines_second`: two same-second start times
with different microseconds have equal job ids, and the theorem recovers
the equality of their second fields. -/
theorem job_id_determines_second_witness :
    validTimeFields ⟨2026, 10, 12, 9, 30, 5, 111111⟩
      ∧ validTimeFields ⟨2026, 10, 12, 9, 30, 5, 222222⟩
      ∧ jobIdChars ⟨2026, 10, 12, 9, 30, 5, 111111⟩
          = jobIdChars ⟨2026, 10, 12, 9, 30, 5, 222222⟩
      ∧ (⟨2026, 10, 12, 9, 30, 5, 111111⟩ : UTCTime).second
          = (⟨2026, 10, 12, 9, 30, 5, 222222⟩ : UTCTime).second :=
  ⟨by decide, by decide, rfl,
    (job_id_determines_second ⟨2026, 10, 12, 9, 30, 5, 111111⟩
      ⟨2026, 10, 12, 9, 30, 5, 222222⟩ (by decide) (by decide)
      rfl).2.2.2.2.2⟩

/-! ## Meter-fleet resolution (worker setup, lines 432–487)

Each worker loads its meter fleet once: if a session is available and
`production_source != 'SYNTHETIC'` resolves to a configured source, a
catalog query with `LIMIT meters` is attempted, each returned row mapped
to a meter dict with `production_matched=True`; any exception is caught
and logged (lines 460–461).  If the fleet is still empty — catalog
failure, no session, unknown or synthetic source, or an empty table —
`meters` synthetic meters are generated deterministically from the index
(lines 464–482). -/

/-- One row of the catalog query (lines 437–451); `COALESCE` makes the
segment always present. -/
structure CatalogRow where
  meter_id : String
  transformer_id : Option String
  circuit_id : Option String
  substation_id : Option String
  customer_segment : String
  latitude : Option ℚ
  longitude : Option ℚ
deriving DecidableEq, Repr

/-- Lines 453–462: map a catalog row into the worker's meter dict, with
`production_matched=True`. -/
def catalogRowToMeter (r : CatalogRow) : MeterInfo :=
  { meter_id := some r.meter_id
    transformer_id := r.transformer_id
    circuit_id := r.circuit_id
    substation_id := r.substation_id
    customer_segment := some r.customer_segment
    latitude := r.latitude
    longitude := r.longitude
    production_matched := some true }

/-- The keys of `PRODUCTION_DATA_SOURCES` (lines 81–115). -/
def productionDataSourceKeys : List String :=
  ["METER_INFRASTRUCTURE", "AMI_METADATA_SEARCH", "SYNTHETIC"]

/-- Lines 466–482: the synthetic meter generated at index `i`.  The geo
jitter draws (`random.uniform(-0.5, 0.5)`) are passed in as functions of
the index. -/
def syntheticMeter (service_area : String) (latJitter lonJitter : ℕ → ℚ)
    (i : ℕ) : MeterInfo :=
  let area3 := service_area.data.take 3
  { meter_id := some (String.mk ("MTR-".data ++ area3 ++ "-".data ++ pyPad 6 i))
    transformer_id :=
      some (String.mk ("XFMR-".data ++ area3 ++ "-".data ++ pyPad 5 (i / 10)))
    circuit_id :=
      some (String.mk
        ("CIRCUIT-".data ++ area3 ++ "-".data ++ pyPad 4 (i / 100)))
    substation_id :=
      some (String.mk ("SUB-".data ++ area3 ++ "-".data ++ pyPad 3 (i / 1000)))
    customer_segment := some
      (if i % 10 = 1 then "INDUSTRIAL"
       else if i % 10 = 0 then "COMMERCIAL" else "RESIDENTIAL")
    latitude := some (29.7604 + latJitter i)
    longitude := some (-95.3698 + lonJitter i)
    production_matched := some false }

/-- Lines 432–462: the fleet as loaded from the catalog — empty when no
session is available, when the source is `'SYNTHETIC'` or unknown, or
when the query raised (the `except` handler at lines 460–461 swallows
the exception and leaves `meter_fleet = []`). -/
def catalogFleet (production_source : String) (sessionAvailable : Bool)
    (catalogResult : Except String (List CatalogRow)) : List MeterInfo :=
  if sessionAvailable = true ∧ production_source ≠ "SYNTHETIC"
      ∧ production_source ∈ productionDataSourceKeys then
    match catalogResult with
    | Except.ok rows => rows.map catalogRowToMeter
    | Except.error _ => []
  else []

/-- The fleet-resolution step of a worker (lines 432–487): the catalog
fleet when it is non-empty, otherwise `meters` synthetic meters
(`if not meter_fleet:` fallback, line 464). -/
def resolveMeterFleet (meters : ℕ) (production_source : String)
    (sessionAvailable : Bool)
    (catalogResult : Except String (List CatalogRow))
    (service_area : String) (latJitter lonJitter : ℕ → ℚ) :
    List MeterInfo :=
  if (catalogFleet production_source sessionAvailable catalogResult).isEmpty
  then
    (List.range meters).map (syntheticMeter service_area latJitter lonJitter)
  else catalogFleet production_source sessionAvailable catalogResult

/-- C4: fleet resolution is total (every failure path is caught and
falls back), returns at most `meters` identities — the catalog query
carries `LIMIT {meters}`, so its result obeys `hlimit` — and a catalog
failure (or an unavailable session) always yields the synthetic fleet,
so a catalog failure never blocks job start. -/
theorem meter_fleet_bounded_and_fallback (meters : ℕ)
    (production_source : String) (sessionAvailable : Bool)
    (catalogResult : Except String (List CatalogRow))
    (service_area : String) (latJitter lonJitter : ℕ → ℚ)
    (hlimit : ∀ rows, catalogResult = Except.ok rows →
      rows.length ≤ meters) :
    (resolveMeterFleet meters production_source sessionAvailable
      catalogResult service_area latJitter lonJitter).length ≤ meters
    ∧ (∀ e, catalogResult = Except.error e →
        resolveMeterFleet meters production_source sessionAvailable
          catalogResult service_area latJitter lonJitter
          = (List.range meters).map
              (syntheticMeter service_area latJitter lonJitter))
    ∧ (sessionAvailable = false →
        resolveMeterFleet meters production_source sessionAvailable
          catalogResult service_area latJitter lonJitter
          = (List.range meters).map
              (syntheticMeter service_area latJitter lonJitter)) := by
  have hcatlen : (catalogFleet production_source sessionAvailable
      catalogResult).length ≤ meters ∨ (catalogFleet production_source
      sessionAvailable catalogResult) = [] := by
    unfold catalogFleet
    split_ifs with hguard
    · match hres : catalogResult with
      | Except.ok rows =>
          left; simpa using hlimit rows rfl
      | Except.error e => right; rfl
    · right; rfl
  refine ⟨?_, ?_, ?_⟩
  · unfold resolveMeterFleet
    split_ifs with hempty
    · simp
    · rcases hcatlen with h | h
      · exact h
      · rw [h] at hempty; simp at hempty
  · intro e he
    have hcat : catalogFleet production_source sessionAvailable
        catalogResult = [] := by
      unfold catalogFleet
      split_ifs with hguard
      · rw [he]
      · rfl
    unfold resolveMeterFleet
    rw [hcat]
    rfl
  · intro hsess
    have hcat : catalogFleet production_source sessionAvailable
        catalogResult = [] := by
      unfold catalogFleet
      rw [if_neg (by simp [hsess])]
    unfold resolveMeterFleet
    rw [hcat]
    rfl

/-- Witness for `meter_fleet_bounded_and_fallback`: a failed catalog
query with `meters = 2` falls back to the two-element synthetic
fleet. -/
theorem meter_fleet_bounded_and_fallback_witness :
    (resolveMeterFleet 2 "METER_INFRASTRUCTURE" true
      (Except.error "connection reset") "TEXAS_GULF_COAST"
      (fun _ => 0) (fun _ => 0)).length ≤ 2
    ∧ resolveMeterFleet 2 "METER_INFRASTRUCTURE" true
        (Except.error "connection reset") "TEXAS_GULF_COAST"
        (fun _ => 0) (fun _ => 0)
      = (List.range 2).map
          (syntheticMeter "TEXAS_GULF_COAST" (fun _ => 0) (fun _ => 0)) :=
  ⟨(meter_fleet_bounded_and_fallback 2 "METER_INFRASTRUCTURE" true
      (Except.error "connection reset") "TEXAS_GULF_COAST"
      (fun _ => 0) (fun _ => 0) (fun rows h => by cases h)).1,
   (meter_fleet_bounded_and_fallback 2 "METER_INFRASTRUCTURE" true
      (Except.error "connection reset") "TEXAS_GULF_COAST"
      (fun _ => 0) (fun _ => 0) (fun rows h => by cases h)).2.1
      "connection reset" rfl⟩

/-! ## External-stage pipe-refresh cadence
(`external_stage_streaming_worker`, lines 1088–1090 and 1334–1349)

The worker discovers `associated_pipes` once at startup (lines
1067–1086, by scanning pipe definitions for the stage name), keeps a
`files_since_last_refresh` counter and `REFRESH_EVERY_N_FILES = 5`:
after each successful upload the counter is incremented, and when it
reaches 5 and pipes were discovered, `ALTER PIPE <p> REFRESH` is issued
once per discovered pipe (per-pipe failures are swallowed, line 1346)
and the counter resets to 0 — unless no session was available, in which
case the counter is left to retry on the next file. -/

/-- `REFRESH_EVERY_N_FILES` (line 1090). -/
def REFRESH_EVERY_N_FILES : ℕ := 5

/-- The statement issued for one pipe (line 1345). -/
def refreshStatement (pipe : String) : String :=
  "ALTER PIPE " ++ pipe ++ " REFRESH"

/-- Lines 1334–1349: state update after one *successful* upload.
Returns the new `files_since_last_refresh` counter and the refresh
statements issued. -/
def afterSuccessfulUpload (associated_pipes : List String)
    (sessionAvailable : Bool) (files_since_last_refresh : ℕ) :
    ℕ × List String :=
  let c := files_since_last_refresh + 1
  if associated_pipes ≠ [] ∧ REFRESH_EVERY_N_FILES ≤ c then
    if sessionAvailable then (0, associated_pipes.map refreshStatement)
    else (c, [])
  else (c, [])

/-- `n` successful uploads starting from counter `c`: final counter and
number of refresh rounds issued (each round issues
`associated_pipes.map refreshStatement`). -/
def uploadsRun (associated_pipes : List String) (sessionAvailable : Bool) :
    ℕ → ℕ → ℕ × ℕ
  | c, 0 => (c, 0)
  | c, n + 1 =>
    let r := afterSuccessfulUpload associated_pipes sessionAvailable c
    let rest := uploadsRun associated_pipes sessionAvailable r.1 n
    (rest.1, (if r.2.isEmpty then 0 else 1) + rest.2)

/-- Below the threshold a successful upload only increments the
counter. -/
theorem afterSuccessfulUpload_below (pipes : List String) (c : ℕ)
    (hc : c + 1 < 5) (sessionAvailable : Bool) :
    afterSuccessfulUpload pipes sessionAvailable c = (c + 1, []) := by
  unfold afterSuccessfulUpload REFRESH_EVERY_N_FILES
  exact if_neg (fun h => absurd h.2 (by omega))

/-- At the threshold, with pipes discovered and a session available, a
refresh is issued for every discovered pipe and the counter resets. -/
theorem afterSuccessfulUpload_fifth (pipes : List String)
    (hne : pipes ≠ []) (c : ℕ) (hc : c + 1 = 5) :
    afterSuccessfulUpload pipes true c = (0, pipes.map refreshStatement) := by
  unfold afterSuccessfulUpload REFRESH_EVERY_N_FILES
  rw [if_pos ⟨hne, by omega⟩, if_pos rfl]

theorem uploadsRun_counter (pipes : List String) (hne : pipes ≠ []) :
    ∀ n c : ℕ, c < 5 →
      uploadsRun pipes true c n = ((c + n) % 5, (c + n) / 5) := by
  intro n
  induction n with
  | zero =>
      intro c hc
      simp only [uploadsRun, Prod.mk.injEq]
      omega
  | succ n ih =>
      intro c hc
      by_cases hfive : c + 1 < 5
      · rw [show uploadsRun pipes true c (n + 1)
            = ((uploadsRun pipes true (c + 1) n).1,
               (if ([] : List String).isEmpty then 0 else 1)
                + (uploadsRun pipes true (c + 1) n).2) from by
          simp only [uploadsRun, afterSuccessfulUpload_below pipes c hfive]]
        rw [ih (c + 1) (by omega)]
        simp only [List.isEmpty_nil, if_pos, Prod.mk.injEq]
        omega
      · have hc5 : c + 1 = 5 := by omega
        have hmapne : (pipes.map refreshStatement).isEmpty = false := by
          cases pipes with
          | nil => exact absurd rfl hne
          | cons p ps => rfl
        rw [show uploadsRun pipes true c (n + 1)
            = ((uploadsRun pipes true 0 n).1,
               (if (pipes.map refreshStatement).isEmpty then 0 else 1)
                + (uploadsRun pipes true 0 n).2) from by
          simp only [uploadsRun, afterSuccessfulUpload_fifth pipes hne c hc5]]
        rw [ih 0 (by omega), hmapne]
        simp only [Bool.false_eq_true, if_false, Prod.mk.injEq]
        omega

/-- C7: with a non-empty set of discovered pipes and a session
available, (a) each of the first four uploads after a refresh only
advances the counter and issues nothing, (b) the fifth upload issues
exactly one refresh statement per discovered pipe and resets the counter
to 0, and (c) over any run of `n` successful uploads the counter ends at
`n % 5` after exactly `n / 5` refresh rounds. -/
theorem refresh_every_five_uploads (pipes : List String)
    (hne : pipes ≠ []) :
    (∀ c : ℕ, c + 1 < 5 → ∀ b : Bool,
      afterSuccessfulUpload pipes b c = (c + 1, []))
    ∧ (∀ c : ℕ, c + 1 = 5 →
        afterSuccessfulUpload pipes true c = (0, pipes.map refreshStatement)
        ∧ (pipes.map refreshStatement).length = pipes.length)
    ∧ (∀ n : ℕ, uploadsRun pipes true 0 n = (n % 5, n / 5)) :=
  ⟨fun c hc b => afterSuccessfulUpload_below pipes c hc b,
   fun c hc => ⟨afterSuccessfulUpload_fifth pipes hne c hc, by simp⟩,
   fun n => by simpa using uploadsRun_counter pipes hne n 0 (by omega)⟩

/-- Witness for `refresh_every_five_uploads`: one discovered pipe; the
fifth upload emits its refresh statement and resets the counter; seven
uploads make one refresh round and leave the counter at 2. -/
theorem refresh_every_five_uploads_witness :
    (["FLUX_DB.PRODUCTION.AMI_RAW_PIPE"] : List String) ≠ []
      ∧ afterSuccessfulUpload ["FLUX_DB.PRODUCTION.AMI_RAW_PIPE"] true 4
          = (0, ["ALTER PIPE FLUX_DB.PRODUCTION.AMI_RAW_PIPE REFRESH"])
      ∧ uploadsRun ["FLUX_DB.PRODUCTION.AMI_RAW_PIPE"] true 0 7 = (2, 1) :=
  ⟨by decide,
   ((refresh_every_five_uploads ["FLUX_DB.PRODUCTION.AMI_RAW_PIPE"]
      (by decide)).2.1 4 rfl).1,
   by simpa using (refresh_every_five_uploads
      ["FLUX_DB.PRODUCTION.AMI_RAW_PIPE"] (by decide)).2.2 7⟩

/-! ## Status endpoint (`get_streaming_status`, lines 7352–7374)

The endpoint iterates over every entry of `active_streaming_jobs` under
the lock, builds a snapshot dict per entry with no filtering on status,
and returns `{'active_jobs': jobs, 'count': len(jobs)}`. -/

/-- The registry value for one job, as read by the endpoint. -/
structure JobEntry where
  status : Status
  mechanism : String
  target_table : String
  meters : ℕ
  rows_per_sec : ℕ
  total_rows : ℕ
  batches_sent : ℕ
  errors : ℕ
deriving DecidableEq, Repr

/-- One element of the returned `active_jobs` list (lines 7361–7372);
the wall-clock `start_time`/`last_batch_time` strings are left out. -/
structure JobSnapshot where
  job_id : String
  status : Status
  mechanism : String
  target_table : String
  meters : ℕ
  rows_per_sec : ℕ
  total_rows_sent : ℕ
  batches_sent : ℕ
  errors : ℕ
deriving DecidableEq, Repr

/-- Lines 7361–7372: the snapshot built for one registry entry. -/
def snapshotOf (p : String × JobEntry) : JobSnapshot :=
  { job_id := p.1
    status := p.2.status
    mechanism := p.2.mechanism
    target_table := p.2.target_table
    meters := p.2.meters
    rows_per_sec := p.2.rows_per_sec
    total_rows_sent := p.2.total_rows
    batches_sent := p.2.batches_sent
    errors := p.2.errors }

/-- `get_streaming_status` (lines 7352–7374): the snapshot list over
every registry entry, and `count = len(jobs)`. -/
def get_streaming_status (registry : List (String × JobEntry)) :
    List JobSnapshot × ℕ :=
  (registry.map snapshotOf, (registry.map snapshotOf).length)

/-- C10: the status endpoint reports one snapshot per registry entry —
no status is filtered out, so `STOPPED` and `FAILED` jobs stay visible
until removed — the snapshot keeps the entry's status verbatim, and the
reported count equals the number of registry entries. -/
theorem status_lists_all_jobs (registry : List (String × JobEntry)) :
    (get_streaming_status registry).2 = registry.length
    ∧ (get_streaming_status registry).1 = registry.map snapshotOf
    ∧ ∀ p ∈ registry, snapshotOf p ∈ (get_streaming_status registry).1
        ∧ (snapshotOf p).status = p.2.status :=
  ⟨by simp [get_streaming_status], rfl,
   fun p hp => ⟨List.mem_map_of_mem snapshotOf hp, rfl⟩⟩

/-- A registry holding one `STOPPED` and one `FAILED` job, for the
status-endpoint witness. -/
def witnessStoppedEntry : String × JobEntry :=
  ("flux_stream_20261012_093005",
   { status := STOPPED, mechanism := "snowpipe_classic",
     target_table := "FLUX_DB.PRODUCTION.AMI_STREAMING_DATA",
     meters := 100, rows_per_sec := 50, total_rows := 500,
     batches_sent := 10, errors := 0 })

/-- A failed job entry for the status-endpoint witness. -/
def witnessFailedEntry : String × JobEntry :=
  ("flux_stream_20261012_101500",
   { status := FAILED, mechanism := "raw_json_s3",
     target_table := "s3://bucket/raw/ami/", meters := 10,
     rows_per_sec := 5, total_rows := 0, batches_sent := 0, errors := 1 })

/-- The registry used by the status-endpoint witness. -/
def witnessRegistry : List (String × JobEntry) :=
  [witnessStoppedEntry, witnessFailedEntry]

/-- Witness for `status_lists_all_jobs`: both the `STOPPED` and the
`FAILED` entry appear in the response, and the count is the registry
size. -/
theorem status_lists_all_jobs_witness :
    (get_streaming_status witnessRegistry).2 = witnessRegistry.length
      ∧ snapshotOf witnessStoppedEntry
          ∈ (get_streaming_status witnessRegistry).1
      ∧ snapshotOf witnessFailedEntry
          ∈ (get_streaming_status witnessRegistry).1 :=
  ⟨(status_lists_all_jobs witnessRegistry).1,
   ((status_lists_all_jobs witnessRegistry).2.2 witnessStoppedEntry
      (by simp [witnessRegistry])).1,
   ((status_lists_all_jobs witnessRegistry).2.2 witnessFailedEntry
      (by simp [witnessRegistry])).1⟩

end FluxForge
